import Mathlib

/-!
Shallow embedding of the fallback-orchestration data fetcher of the
stock-price-api repository (src/app/data_fetcher.py and its leaf clients
src/data_sources/yahoo_yfinance.py, src/data_sources/yahoo_html.py, and the
data model src/core/models.py).

External effects (network calls, the LLM backend, wall-clock time) are
modelled by an environment record giving the outcome of each external call;
Python exceptions are modelled by an explicit error type; the scraper's
mutable selector list is threaded explicitly.  Timestamps are not modelled
(no claim depends on them); float values are modelled as rationals.
-/

namespace StockAPI

/-- Python exception values, tagged by the exception class that matters to the
fetcher's `except` clauses: `YFinanceError`, `HTMLScraperError`, `GeminiError`,
a bare `Exception(msg)`, and any other class (`ValueError`, httpx errors, ...). -/
inductive PyExc where
  | yfinanceError (m : String)
  | htmlScraperError (m : String)
  | geminiError (m : String)
  | exception (m : String)
  | otherError (m : String)
deriving DecidableEq

/-- The message string carried by an exception (its `str()`). -/
def PyExc.msg : PyExc → String
  | .yfinanceError m => m
  | .htmlScraperError m => m
  | .geminiError m => m
  | .exception m => m
  | .otherError m => m

/-- The `Quote` model of src/core/models.py (timestamp omitted). -/
structure Quote where
  ticker : String
  price : Rat
  currency : String
  source : String
  change : Option Rat
  change_percent : Option Rat
  volume : Option Int
  market_cap : Option Rat
deriving DecidableEq

/-- Raw field values handed to the pydantic `Quote` constructor before
validation; `currency = none` means the argument was not supplied, so the
default applies. -/
structure QuoteInput where
  ticker : String
  price : Rat
  currency : Option String
  source : String
  change : Option Rat := none
  change_percent : Option Rat := none
  volume : Option Int := none
  market_cap : Option Rat := none

/-- The `Literal["yfinance", "yahoo_html"]` constraint on `Quote.source`. -/
def validSource (s : String) : Bool :=
  s = "yfinance" || s = "yahoo_html"

/-- Pydantic validation of `Quote` as declared in src/core/models.py:
`price` carries `ge=0`, `source` is a two-value literal, `currency` defaults
to "USD"; `volume` and `market_cap` are declared with no bound. -/
def Quote.validate (i : QuoteInput) : Except String Quote :=
  if i.price < 0 then
    .error "price: Input should be greater than or equal to 0"
  else if !(validSource i.source) then
    .error "source: Input should be yfinance or yahoo_html"
  else
    .ok { ticker := i.ticker, price := i.price,
          currency := i.currency.getD "USD", source := i.source,
          change := i.change, change_percent := i.change_percent,
          volume := i.volume, market_cap := i.market_cap }

/-- The `ScrapeMetadata` model of src/core/models.py (timestamp omitted). -/
structure ScrapeMetadata where
  request_id : String
  ticker : String
  source : String
  latency_ms : Rat
  success : Bool
  error_message : Option String
  gemini_used : Bool
deriving DecidableEq

/-- `SelectorConfig.PRICE_SELECTORS` from src/data_sources/yahoo_html.py. -/
def PRICE_SELECTORS : List String :=
  ["fin-streamer[data-field=\x27regularMarketPrice\x27]",
   "[data-testid=\x27qsp-price\x27]",
   ".livePrice span"]

/-- Python truthiness of an optional string (`None` and `""` are falsy). -/
def pyTruthy : Option String → Bool
  | none => false
  | some s => !s.isEmpty

/-- `YahooHTMLScraper.update_selectors` (yahoo_html.py lines 341-352): if the
argument is truthy and not already in the price-selector list, insert it at
index 0; otherwise leave the list unchanged. -/
def update_selectors (sels : List String) (new_price_selector : Option String) :
    List String :=
  match new_price_selector with
  | none => sels
  | some s =>
    if s.isEmpty then sels
    else if s ∈ sels then sels
    else s :: sels

/-- The feature flags of `Settings` (src/core/config.py) that the fetcher
reads. -/
structure Settings where
  use_yfinance : Bool
  use_html_fallback : Bool
  use_gemini_assistant : Bool

/-- The dict returned by `ScrapingAssistant.suggest_selectors`; only the
`price_selector` key is consulted by the fetcher (`none` models both an absent
key and an explicit null). -/
structure Suggestion where
  price_selector : Option String

/-- Outcomes of the external calls a single `get_quote` request can make.
`providerUnderlying` / `scraper1Underlying` / `scraper2Underlying` are the
outcomes *inside* the leaf clients' own try blocks, before the leaf client
wraps them (yahoo_yfinance.py lines 113-115, yahoo_html.py lines 304-309);
an error there may be of any exception class. -/
structure FetchEnv where
  providerUnderlying : Except PyExc Quote
  scraper1Underlying : Except PyExc Quote
  assistantAvailable : Bool
  snippetResult : Except PyExc String
  suggestResult : Except PyExc Suggestion
  scraper2Underlying : Except PyExc Quote
  request_id : String
  latency : Rat

/-- `YFinanceDataSource.get_latest_quote`: the whole body sits in a
`try ... except Exception` that re-raises every failure as a `YFinanceError`
whose message embeds the underlying message. -/
def yf_get_latest_quote (ticker : String) (underlying : Except PyExc Quote) :
    Except PyExc Quote :=
  match underlying with
  | .ok q => .ok q
  | .error e =>
      .error (.yfinanceError ("Failed to get quote for " ++ ticker ++ ": " ++ e.msg))

/-- `YahooHTMLScraper.get_quote`: the body sits in a `try ... except Exception`
that re-raises every failure as an `HTMLScraperError`. -/
def html_get_quote (ticker : String) (underlying : Except PyExc Quote) :
    Except PyExc Quote :=
  match underlying with
  | .ok q => .ok q
  | .error e =>
      .error (.htmlScraperError ("Failed to scrape " ++ ticker ++ ": " ++ e.msg))

/-- Observable outcome of one `DataFetcher.get_quote` call: the returned value
or raised exception, the log lines emitted, how many times each collaborator
was invoked, the scraper's price-selector list after the call, and — as a ghost
field — a metadata record that the code constructed but neither returned,
logged, nor attached to the raised exception. -/
structure FetchOutcome where
  result : Except PyExc (Quote × ScrapeMetadata)
  logs : List String
  providerCalls : Nat
  scraperCalls : Nat
  snippetCalls : Nat
  assistantCalls : Nat
  selectors : List String
  discardedMeta : Option ScrapeMetadata

/-- Build a `ScrapeMetadata` record as `get_quote` does at each site. -/
def mkMeta (rid t src : String) (lat : Rat) (succ : Bool) (err : Option String)
    (gu : Bool) : ScrapeMetadata :=
  { request_id := rid, ticker := t, source := src, latency_ms := lat,
    success := succ, error_message := err, gemini_used := gu }

/-- Outcome of `DataFetcher._gemini_assisted_scrape`. -/
structure GeminiScrapeOutcome where
  result : Except PyExc Quote
  logs : List String
  snippetCalls : Nat
  assistantCalls : Nat
  scraperCalls : Nat
  selectors : List String

/-- `DataFetcher._gemini_assisted_scrape` (data_fetcher.py lines 146-174):
fetch an HTML snippet, ask the assistant for selectors, install a truthy
`price_selector` suggestion via `update_selectors`, then retry the scraper.
Any exception from the first two steps aborts the sub-path before any
selector mutation. -/
def gemini_assisted_scrape (env : FetchEnv) (sel0 : List String)
    (ticker : String) : GeminiScrapeOutcome :=
  let l0 := ["Attempting Gemini-assisted scraping for " ++ ticker]
  match env.snippetResult with
  | .error e =>
      { result := .error e, logs := l0, snippetCalls := 1, assistantCalls := 0,
        scraperCalls := 0, selectors := sel0 }
  | .ok _ =>
    match env.suggestResult with
    | .error e =>
        { result := .error e, logs := l0, snippetCalls := 1, assistantCalls := 1,
          scraperCalls := 0, selectors := sel0 }
    | .ok sugg =>
      let sel1 :=
        if pyTruthy sugg.price_selector then
          update_selectors sel0 sugg.price_selector
        else sel0
      { result := html_get_quote ticker env.scraper2Underlying, logs := l0,
        snippetCalls := 1, assistantCalls := 1, scraperCalls := 1,
        selectors := sel1 }

/-- The terminal failure path of `get_quote` (data_fetcher.py lines 130-144):
build a failure metadata record, then raise a bare `Exception` carrying only
the message string.  The metadata is a dead local — it goes to
`discardedMeta`, not to the result or the log. -/
def allFailed (env : FetchEnv) (ticker : String) (logs : List String)
    (pc sc snc ac : Nat) (sels : List String) : FetchOutcome :=
  let msg := "All data sources failed for " ++ ticker
  { result := .error (.exception msg), logs := logs,
    providerCalls := pc, scraperCalls := sc, snippetCalls := snc,
    assistantCalls := ac, selectors := sels,
    discardedMeta := some (mkMeta env.request_id ticker "none" env.latency
      false (some msg) false) }

/-- The HTML-fallback stage of `get_quote` (data_fetcher.py lines 90-128),
entered after the provider stage did not return: first scrape, on
`HTMLScraperError` optionally the Gemini-assisted sub-path (guarded by
`settings.use_gemini_assistant` and assistant availability), whose failures
are caught by a blanket `except Exception`. -/
def scrapeStage (cfg : Settings) (env : FetchEnv) (sel0 : List String)
    (ticker : String) (logs0 : List String) (pc : Nat) : FetchOutcome :=
  if cfg.use_html_fallback then
    match html_get_quote ticker env.scraper1Underlying with
    | .ok q =>
        { result := .ok (q, mkMeta env.request_id ticker "yahoo_html"
            env.latency true none false),
          logs := logs0, providerCalls := pc, scraperCalls := 1,
          snippetCalls := 0, assistantCalls := 0, selectors := sel0,
          discardedMeta := none }
    | .error (.htmlScraperError m) =>
        let logs1 := logs0 ++ ["HTML scraping failed for " ++ ticker ++ ": " ++ m]
        if cfg.use_gemini_assistant && env.assistantAvailable then
          let g := gemini_assisted_scrape env sel0 ticker
          match g.result with
          | .ok q =>
              { result := .ok (q, mkMeta env.request_id ticker "yahoo_html"
                  env.latency true none true),
                logs := logs1 ++ g.logs, providerCalls := pc,
                scraperCalls := 1 + g.scraperCalls,
                snippetCalls := g.snippetCalls,
                assistantCalls := g.assistantCalls, selectors := g.selectors,
                discardedMeta := none }
          | .error ge =>
              allFailed env ticker
                (logs1 ++ g.logs ++
                  ["Gemini-assisted scraping failed: " ++ ge.msg])
                pc (1 + g.scraperCalls) g.snippetCalls g.assistantCalls
                g.selectors
        else
          allFailed env ticker logs1 pc 1 0 0 sel0
    | .error e =>
        { result := .error e, logs := logs0, providerCalls := pc,
          scraperCalls := 1, snippetCalls := 0, assistantCalls := 0,
          selectors := sel0, discardedMeta := none }
  else
    allFailed env ticker logs0 pc 0 0 0 sel0

/-- `DataFetcher.get_quote` (data_fetcher.py lines 53-144).  The provider
stage catches `YFinanceError` only; any other exception class would escape
(third branch) — but `yf_get_latest_quote` wraps every failure into
`YFinanceError`, so that branch is dead. -/
def get_quote (cfg : Settings) (env : FetchEnv) (sel0 : List String)
    (ticker : String) : FetchOutcome :=
  if cfg.use_yfinance then
    match yf_get_latest_quote ticker env.providerUnderlying with
    | .ok q =>
        { result := .ok (q, mkMeta env.request_id ticker "yfinance"
            env.latency true none false),
          logs := [], providerCalls := 1, scraperCalls := 0,
          snippetCalls := 0, assistantCalls := 0, selectors := sel0,
          discardedMeta := none }
    | .error (.yfinanceError m) =>
        scrapeStage cfg env sel0 ticker
          ["yfinance failed for " ++ ticker ++ ": " ++ m] 1
    | .error e =>
        { result := .error e, logs := [], providerCalls := 1,
          scraperCalls := 0, snippetCalls := 0, assistantCalls := 0,
          selectors := sel0, discardedMeta := none }
  else
    scrapeStage cfg env sel0 ticker [] 0

/-- Observable outcome of `DataFetcher.get_multiple_quotes`. -/
structure BatchOutcome where
  results : List (Quote × ScrapeMetadata)
  logs : List String
  selectors : List String

/-- `DataFetcher.get_multiple_quotes` (data_fetcher.py lines 198-217):
sequentially call `get_quote` per ticker, keep successes in order, log and
skip failures; the scraper's selector state threads through the batch. -/
def get_multiple_quotes (cfg : Settings) (sel0 : List String)
    (reqs : List (String × FetchEnv)) : BatchOutcome :=
  match reqs with
  | [] => { results := [], logs := [], selectors := sel0 }
  | (t, env) :: rest =>
    let o := get_quote cfg env sel0 t
    let tail := get_multiple_quotes cfg o.selectors rest
    match o.result with
    | .ok r =>
        { results := r :: tail.results, logs := o.logs ++ tail.logs,
          selectors := tail.selectors }
    | .error e =>
        { results := tail.results,
          logs := o.logs ++ ["Failed to get quote for " ++ t ++ ": " ++ e.msg]
            ++ tail.logs,
          selectors := tail.selectors }

/-- The per-ticker contribution of a batch: the (Quote, metadata) pair when
`get_quote` succeeds for that ticker, nothing when it fails. -/
def quoteResultOpt (cfg : Settings) (sel0 : List String)
    (p : String × FetchEnv) : Option (Quote × ScrapeMetadata) :=
  match (get_quote cfg p.2 sel0 p.1).result with
  | .ok r => some r
  | .error _ => none

/-- The `HistoricalBar` model of src/core/models.py (dates as day numbers;
`open` renamed because it is a Lean keyword). -/
structure HistoricalBar where
  ticker : String
  date : Nat
  open_price : Rat
  high : Rat
  low : Rat
  close : Rat
  adj_close : Rat
  volume : Int
deriving DecidableEq

/-- The query range `YFinanceDataSource.get_history` passes to the yfinance
library (yahoo_yfinance.py lines 151-156). -/
inductive HistoryRange where
  | startEnd (s e : Nat)
  | startOnly (s : Nat)
  | periodOnly (p : String)
deriving DecidableEq

/-- The range-selection rule of yahoo_yfinance.py lines 151-156:
`if start and end` / `elif start` / `else` (dates are always truthy in
Python). -/
def selectRange (start stop : Option Nat) (period : String) : HistoryRange :=
  match start, stop with
  | some s, some e => .startEnd s e
  | some s, none => .startOnly s
  | none, _ => .periodOnly period

/-- `YFinanceDataSource.get_history`: pick the range, call the library
(modelled by `underlying`), treat an empty frame as an error, and wrap every
failure as `YFinanceError` (yahoo_yfinance.py lines 148-180). -/
def yf_get_history (ticker : String) (start stop : Option Nat) (period : String)
    (underlying : HistoryRange → Except PyExc (List HistoricalBar)) :
    Except PyExc (List HistoricalBar) :=
  match underlying (selectRange start stop period) with
  | .ok bars =>
      if bars.isEmpty then
        .error (.yfinanceError ("Failed to get history for " ++ ticker ++
          ": No historical data for " ++ ticker))
      else .ok bars
  | .error e =>
      .error (.yfinanceError ("Failed to get history for " ++ ticker ++ ": "
        ++ e.msg))

/-- Observable outcome of `DataFetcher.get_history`. -/
structure HistoryOutcome where
  result : Except PyExc (List HistoricalBar)
  providerCalls : Nat
  scraperCalls : Nat
  snippetCalls : Nat
  assistantCalls : Nat

/-- `DataFetcher.get_history` (data_fetcher.py lines 176-196): a single
delegation to the provider client with no try/except around it — no scraper,
no assistant, the provider's exception propagates untouched. -/
def get_history (ticker : String) (start stop : Option Nat) (period : String)
    (underlying : HistoryRange → Except PyExc (List HistoricalBar)) :
    HistoryOutcome :=
  { result := yf_get_history ticker start stop period underlying,
    providerCalls := 1, scraperCalls := 0, snippetCalls := 0,
    assistantCalls := 0 }

/-! Concrete fixtures used to instantiate the theorems below. -/

/-- A quote as the provider client would build it. -/
def qYf : Quote :=
  { ticker := "AAPL", price := 150, currency := "USD", source := "yfinance",
    change := none, change_percent := none, volume := some 50000000,
    market_cap := some 2500000000000 }

/-- A quote as the HTML scraper would build it. -/
def qHtml : Quote :=
  { ticker := "TST", price := 10, currency := "USD", source := "yahoo_html",
    change := none, change_percent := none, volume := none,
    market_cap := none }

/-- All feature flags enabled (the defaults of src/core/config.py). -/
def cfgAll : Settings := ⟨true, true, true⟩

/-- Both data-source flags disabled. -/
def cfgOff : Settings := ⟨false, false, true⟩

/-- An environment in which every external call fails. -/
def envFail : FetchEnv :=
  { providerUnderlying := .error (.otherError "boom"),
    scraper1Underlying := .error (.otherError "no price"),
    assistantAvailable := false,
    snippetResult := .error (.otherError "net down"),
    suggestResult := .error (.geminiError "unavailable"),
    scraper2Underlying := .error (.otherError "still no price"),
    request_id := "req1", latency := 5 }

/-- Provider succeeds. -/
def envOk : FetchEnv := { envFail with providerUnderlying := .ok qYf }

/-- Provider and first scrape fail; the assistant answers but suggests no
price selector; the scraper re-attempt succeeds anyway. -/
def envC3 : FetchEnv :=
  { envFail with
    assistantAvailable := true, snippetResult := .ok "<html>",
    suggestResult := .ok ⟨none⟩, scraper2Underlying := .ok qHtml }

/-- Like `envC3`, but the assistant suggests a selector that is already in
the default selector list at position 1 (not the front). -/
def envC4 : FetchEnv :=
  { envC3 with
    suggestResult := .ok ⟨some "[data-testid=\x27qsp-price\x27]"⟩ }

/-- Like `envC3`, but the assistant suggests a brand-new selector. -/
def envC4w : FetchEnv :=
  { envC3 with
    suggestResult := .ok ⟨some "span.price-new"⟩ }

/-- A history feed that always fails with a non-provider exception class. -/
def histDown : HistoryRange → Except PyExc (List HistoricalBar) :=
  fun _ => .error (.otherError "feed down")

/-- A two-ticker batch: the first ticker succeeds at the provider, the second
fails at every stage. -/
def reqsW : List (String × FetchEnv) := [("AAPL", envOk), ("INVALID", envFail)]

/-! Helper lemmas shared by the claim theorems. -/

/-- If the Gemini-assisted sub-path produced a quote, it reached the re-scrape
step, so it made exactly one scraper call, one snippet call and one assistant
call. -/
theorem gemini_ok_calls (env : FetchEnv) (sel : List String) (t : String)
    (q : Quote) (h : (gemini_assisted_scrape env sel t).result = .ok q) :
    (gemini_assisted_scrape env sel t).scraperCalls = 1
    ∧ (gemini_assisted_scrape env sel t).snippetCalls = 1
    ∧ (gemini_assisted_scrape env sel t).assistantCalls = 1 := by
  cases hsn : env.snippetResult
  · simp [gemini_assisted_scrape, hsn] at h
  · cases hsu : env.suggestResult
    · simp [gemini_assisted_scrape, hsn, hsu] at h
    · simp [gemini_assisted_scrape, hsn, hsu]

/-- If the Gemini-assisted sub-path produced a quote and the assistant
returned suggestion `s`, the selector list was updated exactly when `s` is
truthy. -/
theorem gemini_ok_selectors (env : FetchEnv) (sel : List String) (t : String)
    (q : Quote) (s : Option String)
    (h : (gemini_assisted_scrape env sel t).result = .ok q)
    (hs : env.suggestResult = .ok ⟨s⟩) :
    (gemini_assisted_scrape env sel t).selectors
      = if pyTruthy s then update_selectors sel s else sel := by
  cases hsn : env.snippetResult
  · simp [gemini_assisted_scrape, hsn] at h
  · simp [gemini_assisted_scrape, hsn, hs]

/-- Everything about the Gemini-assisted sub-path except the resulting
selector list is independent of the selector list it starts from. -/
theorem gemini_sel_indep (env : FetchEnv) (s1 s2 : List String) (t : String) :
    (gemini_assisted_scrape env s1 t).result
        = (gemini_assisted_scrape env s2 t).result
    ∧ (gemini_assisted_scrape env s1 t).logs
        = (gemini_assisted_scrape env s2 t).logs := by
  cases hsn : env.snippetResult
  · simp [gemini_assisted_scrape, hsn]
  · cases hsu : env.suggestResult
    · simp [gemini_assisted_scrape, hsn, hsu]
    · simp [gemini_assisted_scrape, hsn, hsu]

/-- If the scraper stage ends in an error, it is the terminal exhaustion
error, and the discarded failure metadata is the canonical one. -/
theorem scrapeStage_error_shape (cfg : Settings) (env : FetchEnv)
    (sel0 : List String) (t : String) (logs0 : List String) (pc : Nat)
    (e : PyExc)
    (h : (scrapeStage cfg env sel0 t logs0 pc).result = .error e) :
    e = .exception ("All data sources failed for " ++ t)
    ∧ (scrapeStage cfg env sel0 t logs0 pc).discardedMeta
        = some (mkMeta env.request_id t "none" env.latency false
            (some ("All data sources failed for " ++ t)) false) := by
  cases hh : cfg.use_html_fallback
  · simp [scrapeStage, hh, allFailed] at h ⊢
    exact h.symm
  · cases hs : env.scraper1Underlying
    case error e1 =>
      cases hg : (cfg.use_gemini_assistant && env.assistantAvailable)
      · simp [scrapeStage, hh, html_get_quote, hs, hg, allFailed] at h ⊢
        exact h.symm
      · cases hres : (gemini_assisted_scrape env sel0 t).result
        case ok q2 =>
          simp [scrapeStage, hh, html_get_quote, hs, hg, hres] at h
        case error ge =>
          simp [scrapeStage, hh, html_get_quote, hs, hg, hres, allFailed]
            at h ⊢
          exact h.symm
    case ok q1 =>
      simp [scrapeStage, hh, html_get_quote, hs] at h

/-- The scraper stage either discards no metadata or discards exactly the
canonical failure metadata. -/
theorem scrapeStage_discarded (cfg : Settings) (env : FetchEnv)
    (sel0 : List String) (t : String) (logs0 : List String) (pc : Nat) :
    (scrapeStage cfg env sel0 t logs0 pc).discardedMeta = none
    ∨ (scrapeStage cfg env sel0 t logs0 pc).discardedMeta
        = some (mkMeta env.request_id t "none" env.latency false
            (some ("All data sources failed for " ++ t)) false) := by
  cases hh : cfg.use_html_fallback
  · right; simp [scrapeStage, hh, allFailed]
  · cases hs : env.scraper1Underlying
    case error e1 =>
      cases hg : (cfg.use_gemini_assistant && env.assistantAvailable)
      · right; simp [scrapeStage, hh, html_get_quote, hs, hg, allFailed]
      · cases hres : (gemini_assisted_scrape env sel0 t).result
        case ok q2 =>
          left; simp [scrapeStage, hh, html_get_quote, hs, hg, hres]
        case error ge =>
          right
          simp [scrapeStage, hh, html_get_quote, hs, hg, hres, allFailed]
    case ok q1 =>
      left; simp [scrapeStage, hh, html_get_quote, hs]

/-- Metadata facts for a scraper-stage success: success is true, the source is
"yahoo_html", the assistant flag is set iff the stage made two scraper calls,
and when the assistant flag is set the final selector list is the
`update_selectors` image of the initial one under the suggestion. -/
theorem scrapeStage_ok_meta (cfg : Settings) (env : FetchEnv)
    (sel0 : List String) (t : String) (logs0 : List String) (pc : Nat)
    (q : Quote) (m : ScrapeMetadata)
    (h : (scrapeStage cfg env sel0 t logs0 pc).result = .ok (q, m)) :
    m.success = true
    ∧ m.source = "yahoo_html"
    ∧ (m.gemini_used = true
        ↔ (scrapeStage cfg env sel0 t logs0 pc).scraperCalls = 2)
    ∧ (m.gemini_used = true → ∀ s, env.suggestResult = .ok ⟨s⟩ →
        (scrapeStage cfg env sel0 t logs0 pc).selectors
          = if pyTruthy s then update_selectors sel0 s else sel0) := by
  cases hh : cfg.use_html_fallback
  · simp [scrapeStage, hh, allFailed] at h
  · cases hs : env.scraper1Underlying
    case ok q1 =>
      simp only [scrapeStage, hh, html_get_quote, hs, if_true] at h ⊢
      obtain ⟨h1, h2⟩ := Prod.mk.injEq .. ▸ (Except.ok.injEq .. ▸ h)
      subst h2
      refine ⟨rfl, rfl, by simp [mkMeta], ?_⟩
      intro hgem
      simp [mkMeta] at hgem
    case error e1 =>
      cases hg : (cfg.use_gemini_assistant && env.assistantAvailable)
      · simp [scrapeStage, hh, html_get_quote, hs, hg, allFailed] at h
      · cases hres : (gemini_assisted_scrape env sel0 t).result
        case error ge =>
          simp [scrapeStage, hh, html_get_quote, hs, hg, hres, allFailed] at h
        case ok q2 =>
          have hcalls := gemini_ok_calls env sel0 t q2 hres
          simp only [scrapeStage, hh, html_get_quote, hs, hg, hres] at h ⊢
          obtain ⟨h1, h2⟩ := Prod.mk.injEq .. ▸ (Except.ok.injEq .. ▸ h)
          subst h2
          refine ⟨rfl, rfl, by simp [mkMeta, hcalls.1], ?_⟩
          intro _ s hsugg
          simpa using gemini_ok_selectors env sel0 t q2 s hres hsugg

/-- Everything downstream of a `get_quote` call except the selector list
(its result and its log) is independent of the selector list it starts
from. -/
theorem scrapeStage_sel_indep (cfg : Settings) (env : FetchEnv)
    (s1 s2 : List String) (t : String) (logs0 : List String) (pc : Nat) :
    (scrapeStage cfg env s1 t logs0 pc).result
        = (scrapeStage cfg env s2 t logs0 pc).result
    ∧ (scrapeStage cfg env s1 t logs0 pc).logs
        = (scrapeStage cfg env s2 t logs0 pc).logs := by
  obtain ⟨hr, hl⟩ := gemini_sel_indep env s1 s2 t
  cases hh : cfg.use_html_fallback
  · simp [scrapeStage, hh, allFailed]
  · cases hs : env.scraper1Underlying
    case ok q1 => simp [scrapeStage, hh, html_get_quote, hs]
    case error e1 =>
      cases hg : (cfg.use_gemini_assistant && env.assistantAvailable)
      · simp [scrapeStage, hh, html_get_quote, hs, hg, allFailed]
      · cases hres : (gemini_assisted_scrape env s1 t).result
        case ok q2 =>
          have hres2 : (gemini_assisted_scrape env s2 t).result = .ok q2 :=
            hr.symm.trans hres
          simp [scrapeStage, hh, html_get_quote, hs, hg, hres, hres2, hl]
        case error ge =>
          have hres2 : (gemini_assisted_scrape env s2 t).result = .error ge :=
            hr.symm.trans hres
          simp [scrapeStage, hh, html_get_quote, hs, hg, hres, hres2, hl,
            allFailed]

/-- The result and log of `get_quote` do not depend on the initial selector
list. -/
theorem get_quote_sel_indep (cfg : Settings) (env : FetchEnv)
    (s1 s2 : List String) (t : String) :
    (get_quote cfg env s1 t).result = (get_quote cfg env s2 t).result
    ∧ (get_quote cfg env s1 t).logs = (get_quote cfg env s2 t).logs := by
  cases hy : cfg.use_yfinance
  · have h := scrapeStage_sel_indep cfg env s1 s2 t [] 0
    simpa [get_quote, hy] using h
  · cases hp : env.providerUnderlying
    case ok q => simp [get_quote, hy, yf_get_latest_quote, hp]
    case error e1 =>
      have h := scrapeStage_sel_indep cfg env s1 s2 t
        ["yfinance failed for " ++ t ++ ": "
          ++ ("Failed to get quote for " ++ t ++ ": " ++ e1.msg)] 1
      simpa [get_quote, hy, yf_get_latest_quote, hp] using h

/-- If `get_quote` raised, it raised the terminal exhaustion error, and the
discarded failure metadata is the canonical one. -/
theorem get_quote_error_shape (cfg : Settings) (env : FetchEnv)
    (sel0 : List String) (t : String) (e : PyExc)
    (h : (get_quote cfg env sel0 t).result = .error e) :
    e = .exception ("All data sources failed for " ++ t)
    ∧ (get_quote cfg env sel0 t).discardedMeta
        = some (mkMeta env.request_id t "none" env.latency false
            (some ("All data sources failed for " ++ t)) false) := by
  cases hy : cfg.use_yfinance
  · have hgq : get_quote cfg env sel0 t = scrapeStage cfg env sel0 t [] 0 := by
      simp [get_quote, hy]
    rw [hgq] at h ⊢
    exact scrapeStage_error_shape cfg env sel0 t [] 0 e h
  · cases hp : env.providerUnderlying
    case ok q => simp [get_quote, hy, yf_get_latest_quote, hp] at h
    case error e1 =>
      have hgq : get_quote cfg env sel0 t = scrapeStage cfg env sel0 t
          ["yfinance failed for " ++ t ++ ": "
            ++ ("Failed to get quote for " ++ t ++ ": " ++ e1.msg)] 1 := by
        simp [get_quote, hy, yf_get_latest_quote, hp]
      rw [hgq] at h ⊢
      exact scrapeStage_error_shape cfg env sel0 t _ 1 e h

/-- `get_quote` either discards no metadata or discards exactly the canonical
failure metadata (whose success and assistant flags are false). -/
theorem get_quote_discarded (cfg : Settings) (env : FetchEnv)
    (sel0 : List String) (t : String) :
    (get_quote cfg env sel0 t).discardedMeta = none
    ∨ (get_quote cfg env sel0 t).discardedMeta
        = some (mkMeta env.request_id t "none" env.latency false
            (some ("All data sources failed for " ++ t)) false) := by
  cases hy : cfg.use_yfinance
  · have hgq : get_quote cfg env sel0 t = scrapeStage cfg env sel0 t [] 0 := by
      simp [get_quote, hy]
    rw [hgq]
    exact scrapeStage_discarded cfg env sel0 t [] 0
  · cases hp : env.providerUnderlying
    case ok q => left; simp [get_quote, hy, yf_get_latest_quote, hp]
    case error e1 =>
      have hgq : get_quote cfg env sel0 t = scrapeStage cfg env sel0 t
          ["yfinance failed for " ++ t ++ ": "
            ++ ("Failed to get quote for " ++ t ++ ": " ++ e1.msg)] 1 := by
        simp [get_quote, hy, yf_get_latest_quote, hp]
      rw [hgq]
      exact scrapeStage_discarded cfg env sel0 t _ 1

/-- Metadata facts for a successful `get_quote`: success is true; the
assistant flag holds iff the stage made two scraper calls; and when it holds
the source is "yahoo_html" and the final selector list is the
`update_selectors` image of the initial one under the suggestion. -/
theorem get_quote_ok_meta (cfg : Settings) (env : FetchEnv)
    (sel0 : List String) (t : String) (q : Quote) (m : ScrapeMetadata)
    (h : (get_quote cfg env sel0 t).result = .ok (q, m)) :
    m.success = true
    ∧ (m.gemini_used = true ↔ (get_quote cfg env sel0 t).scraperCalls = 2)
    ∧ (m.gemini_used = true →
        m.source = "yahoo_html"
        ∧ ∀ s, env.suggestResult = .ok ⟨s⟩ →
            (get_quote cfg env sel0 t).selectors
              = if pyTruthy s then update_selectors sel0 s else sel0) := by
  cases hy : cfg.use_yfinance
  · have hgq : get_quote cfg env sel0 t = scrapeStage cfg env sel0 t [] 0 := by
      simp [get_quote, hy]
    rw [hgq] at h ⊢
    obtain ⟨h1, h2, h3, h4⟩ := scrapeStage_ok_meta cfg env sel0 t [] 0 q m h
    exact ⟨h1, h3, fun hg => ⟨h2, h4 hg⟩⟩
  · cases hp : env.providerUnderlying
    case ok q1 =>
      have hgq : get_quote cfg env sel0 t =
          { result := .ok (q1, mkMeta env.request_id t "yfinance" env.latency
              true none false),
            logs := [], providerCalls := 1, scraperCalls := 0,
            snippetCalls := 0, assistantCalls := 0, selectors := sel0,
            discardedMeta := none } := by
        simp [get_quote, hy, yf_get_latest_quote, hp]
      rw [hgq] at h ⊢
      obtain ⟨h1, h2⟩ := Prod.mk.injEq .. ▸ (Except.ok.injEq .. ▸ h)
      subst h2
      refine ⟨rfl, by simp [mkMeta], ?_⟩
      intro hgem
      simp [mkMeta] at hgem
    case error e1 =>
      have hgq : get_quote cfg env sel0 t = scrapeStage cfg env sel0 t
          ["yfinance failed for " ++ t ++ ": "
            ++ ("Failed to get quote for " ++ t ++ ": " ++ e1.msg)] 1 := by
        simp [get_quote, hy, yf_get_latest_quote, hp]
      rw [hgq] at h ⊢
      obtain ⟨h1, h2, h3, h4⟩ := scrapeStage_ok_meta cfg env sel0 t _ 1 q m h
      exact ⟨h1, h3, fun hg => ⟨h2, h4 hg⟩⟩

/-- C2: every provider- or scraper-stage exception is caught inside
`get_quote` and the fallback chain continues; the only error that can escape
is the terminal "All data sources failed for {ticker}" exception.  (The
fetcher's catches are narrow, but the leaf clients wrap every underlying
exception class into `YFinanceError` / `HTMLScraperError`, and the assistant
sub-path is guarded by a blanket catch, so no other error is reachable.) -/
theorem C2_no_error_escapes (cfg : Settings) (env : FetchEnv)
    (sel0 : List String) (t : String) :
    (∃ q m, (get_quote cfg env sel0 t).result = .ok (q, m))
    ∨ (get_quote cfg env sel0 t).result
        = .error (.exception ("All data sources failed for " ++ t)) := by
  cases hres : (get_quote cfg env sel0 t).result
  case ok r =>
    exact Or.inl ⟨r.1, r.2, rfl⟩
  case error e =>
    right
    rw [(get_quote_error_shape cfg env sel0 t e hres).1]

/-- C1 counterexample: at a concrete all-fail input, the whole observable
outcome of `get_quote` is a bare `Exception("All data sources failed for
TST")` plus the two stage warnings; the failure metadata (source "none",
success false) is constructed and then discarded — it is neither carried in
the error result nor logged, contradicting the claim that it stays
observable through a side channel. -/
theorem C1_counterexample :
    (get_quote cfgAll envFail PRICE_SELECTORS "TST").result
        = .error (.exception "All data sources failed for TST")
    ∧ (get_quote cfgAll envFail PRICE_SELECTORS "TST").logs
        = ["yfinance failed for TST: Failed to get quote for TST: boom",
           "HTML scraping failed for TST: Failed to scrape TST: no price"]
    ∧ (get_quote cfgAll envFail PRICE_SELECTORS "TST").discardedMeta
        = some (mkMeta "req1" "TST" "none" 5 false
            (some "All data sources failed for TST") false) :=
  ⟨rfl, rfl, rfl⟩

/-- C1 (amended): whenever `get_quote` fails, the failure is the terminal
error whose message is "All data sources failed for {ticker}", and the
metadata the code builds at that point (source "none", success false,
error_message equal to that message) is constructed but then discarded — the
raised error carries only the message string and the metadata is not
logged. -/
theorem C1_terminal_failure_amended (cfg : Settings) (env : FetchEnv)
    (sel0 : List String) (t : String) (e : PyExc)
    (h : (get_quote cfg env sel0 t).result = .error e) :
    e = .exception ("All data sources failed for " ++ t)
    ∧ (get_quote cfg env sel0 t).discardedMeta
        = some (mkMeta env.request_id t "none" env.latency false
            (some ("All data sources failed for " ++ t)) false) :=
  get_quote_error_shape cfg env sel0 t e h

/-- C1 witness: the amended theorem instantiated at a concrete all-fail
environment. -/
theorem C1_witness :
    PyExc.exception "All data sources failed for TST"
        = .exception ("All data sources failed for " ++ "TST")
    ∧ (get_quote cfgAll envFail PRICE_SELECTORS "TST").discardedMeta
        = some (mkMeta "req1" "TST" "none" 5 false
            (some ("All data sources failed for " ++ "TST")) false) :=
  C1_terminal_failure_amended cfgAll envFail PRICE_SELECTORS "TST"
    (.exception "All data sources failed for TST") rfl

/-- C3 counterexample: the assistant answers but suggests no usable selector
(`price_selector` null), yet the scraper re-attempt succeeds, and the
returned metadata still has `gemini_used = true` — contradicting "assistant
_used is false whenever the assistant produced no usable selector". -/
theorem C3_counterexample :
    (get_quote cfgAll envC3 PRICE_SELECTORS "TST").result
        = .ok (qHtml, mkMeta "req1" "TST" "yahoo_html" 5 true none true)
    ∧ envC3.suggestResult = .ok ⟨none⟩ :=
  ⟨rfl, rfl⟩

/-- C3 (amended): for a successful `get_quote`, `gemini_used` is true iff the
success came from the scraper re-attempt after consulting the assistant
(i.e., the request made two scraper calls), regardless of whether the
assistant produced a usable selector; `gemini_used = true` still implies
`success = true`, and any discarded failure metadata has
`gemini_used = false` and `success = false`. -/
theorem C3_gemini_used_iff_amended (cfg : Settings) (env : FetchEnv)
    (sel0 : List String) (t : String) :
    (∀ q m, (get_quote cfg env sel0 t).result = .ok (q, m) →
      (m.gemini_used = true ↔ (get_quote cfg env sel0 t).scraperCalls = 2)
      ∧ m.success = true)
    ∧ (∀ m, (get_quote cfg env sel0 t).discardedMeta = some m →
        m.gemini_used = false ∧ m.success = false) := by
  constructor
  · intro q m h
    obtain ⟨h1, h2, _⟩ := get_quote_ok_meta cfg env sel0 t q m h
    exact ⟨h2, h1⟩
  · intro m h
    rcases get_quote_discarded cfg env sel0 t with hd | hd
    · rw [hd] at h; cases h
    · rw [hd] at h
      obtain rfl := Option.some.injEq .. ▸ h
      exact ⟨rfl, rfl⟩

/-- C3 witness: the amended theorem instantiated at the environment of the
counterexample, where the successful path was the assistant-assisted
re-scrape. -/
theorem C3_witness :
    ((mkMeta "req1" "TST" "yahoo_html" 5 true none true).gemini_used = true
      ↔ (get_quote cfgAll envC3 PRICE_SELECTORS "TST").scraperCalls = 2)
    ∧ (mkMeta "req1" "TST" "yahoo_html" 5 true none true).success = true :=
  (C3_gemini_used_iff_amended cfgAll envC3 PRICE_SELECTORS "TST").1
    qHtml (mkMeta "req1" "TST" "yahoo_html" 5 true none true) rfl

/-- C4 counterexample: the assistant suggests a selector that already sits at
position 1 of the default selector list and the re-attempt succeeds;
`update_selectors` refuses the duplicate, so after the successful repair the
suggested selector is NOT first in the list — contradicting the claim. -/
theorem C4_counterexample :
    (get_quote cfgAll envC4 PRICE_SELECTORS "TST").result
        = .ok (qHtml, mkMeta "req1" "TST" "yahoo_html" 5 true none true)
    ∧ envC4.suggestResult = .ok ⟨some "[data-testid=\x27qsp-price\x27]"⟩
    ∧ (get_quote cfgAll envC4 PRICE_SELECTORS "TST").selectors
        = PRICE_SELECTORS
    ∧ PRICE_SELECTORS.head?
        = some "fin-streamer[data-field=\x27regularMarketPrice\x27]"
    ∧ "[data-testid=\x27qsp-price\x27]"
        ≠ "fin-streamer[data-field=\x27regularMarketPrice\x27]" :=
  ⟨rfl, rfl, rfl, rfl, by decide⟩

/-- C4 (amended): when the repair succeeds using a (truthy) suggested
selector, the selector list becomes `update_selectors` of the old one: the
suggestion is prepended — hence first — when it was not already present, and
the list is left unchanged (duplicates not inserted, no move-to-front) when
it was; in either case the suggestion is in the final list and the metadata
source is "yahoo_html". -/
theorem C4_selector_install_amended (cfg : Settings) (env : FetchEnv)
    (sel0 : List String) (t : String) (s : String) (q : Quote)
    (m : ScrapeMetadata)
    (hsugg : env.suggestResult = .ok ⟨some s⟩)
    (hne : s.isEmpty = false)
    (hok : (get_quote cfg env sel0 t).result = .ok (q, m))
    (hgem : m.gemini_used = true) :
    m.source = "yahoo_html"
    ∧ (get_quote cfg env sel0 t).selectors = update_selectors sel0 (some s)
    ∧ s ∈ (get_quote cfg env sel0 t).selectors
    ∧ (s ∉ sel0 → (get_quote cfg env sel0 t).selectors = s :: sel0) := by
  obtain ⟨-, -, h3⟩ := get_quote_ok_meta cfg env sel0 t q m hok
  obtain ⟨hsrc, hsel⟩ := h3 hgem
  have hsel2 : (get_quote cfg env sel0 t).selectors
      = update_selectors sel0 (some s) := by
    rw [hsel (some s) hsugg]
    simp [pyTruthy, hne]
  refine ⟨hsrc, hsel2, ?_, ?_⟩
  · rw [hsel2]
    unfold update_selectors
    simp only [hne, Bool.false_eq_true, if_false]
    by_cases hm : s ∈ sel0
    · simp [hm]
    · simp [hm]
  · intro hm
    rw [hsel2]
    unfold update_selectors
    simp [hne, hm]

/-- C4 witness: the amended theorem at a fresh suggested selector — it ends
up first in the list. -/
theorem C4_witness :
    (mkMeta "req1" "TST" "yahoo_html" 5 true none true).source = "yahoo_html"
    ∧ (get_quote cfgAll envC4w PRICE_SELECTORS "TST").selectors
        = "span.price-new" :: PRICE_SELECTORS := by
  have h := C4_selector_install_amended cfgAll envC4w PRICE_SELECTORS "TST"
    "span.price-new" qHtml (mkMeta "req1" "TST" "yahoo_html" 5 true none true)
    rfl rfl rfl rfl
  exact ⟨h.1, h.2.2.2 (by decide)⟩

/-- C6: `get_multiple_quotes` calls `get_quote` once per ticker in input
order and returns exactly the pairs of the succeeding tickers, in input
order; every failing ticker contributes a log line and is omitted from the
result rather than aborting the batch. -/
theorem C6_batch_sequential (cfg : Settings) (sel0 : List String)
    (reqs : List (String × FetchEnv)) :
    (get_multiple_quotes cfg sel0 reqs).results
      = reqs.filterMap (quoteResultOpt cfg sel0)
    ∧ ∀ p ∈ reqs, ∀ e, (get_quote cfg p.2 sel0 p.1).result = .error e →
        ("Failed to get quote for " ++ p.1 ++ ": " ++ e.msg)
          ∈ (get_multiple_quotes cfg sel0 reqs).logs := by
  induction reqs generalizing sel0 with
  | nil => exact ⟨rfl, by intro p hp; cases hp⟩
  | cons hd rest ih =>
    obtain ⟨t, env⟩ := hd
    obtain ⟨ih1, ih2⟩ := ih (get_quote cfg env sel0 t).selectors
    have hfm : rest.filterMap
          (quoteResultOpt cfg (get_quote cfg env sel0 t).selectors)
        = rest.filterMap (quoteResultOpt cfg sel0) :=
      List.filterMap_congr (fun p _ => by
        unfold quoteResultOpt
        rw [(get_quote_sel_indep cfg p.2
          (get_quote cfg env sel0 t).selectors sel0 p.1).1])
    cases hres : (get_quote cfg env sel0 t).result
    case ok r =>
      constructor
      · simp [get_multiple_quotes, hres, ih1, hfm, List.filterMap_cons,
          quoteResultOpt]
      · intro p hp e he
        rcases List.mem_cons.mp hp with hpe | hpr
        · subst hpe
          simp only at he
          rw [hres] at he
          cases he
        · have he2 : (get_quote cfg p.2
              (get_quote cfg env sel0 t).selectors p.1).result = .error e := by
            rw [(get_quote_sel_indep cfg p.2
              (get_quote cfg env sel0 t).selectors sel0 p.1).1]
            exact he
          have hlog := ih2 p hpr e he2
          simp [get_multiple_quotes, hres]
          exact Or.inr hlog
    case error e0 =>
      constructor
      · simp [get_multiple_quotes, hres, ih1, hfm, List.filterMap_cons,
          quoteResultOpt]
      · intro p hp e he
        rcases List.mem_cons.mp hp with hpe | hpr
        · subst hpe
          simp only at he
          rw [hres] at he
          obtain rfl := (Except.error.injEq .. ▸ he).symm
          simp [get_multiple_quotes, hres]
        · have he2 : (get_quote cfg p.2
              (get_quote cfg env sel0 t).selectors p.1).result = .error e := by
            rw [(get_quote_sel_indep cfg p.2
              (get_quote cfg env sel0 t).selectors sel0 p.1).1]
            exact he
          have hlog := ih2 p hpr e he2
          simp [get_multiple_quotes, hres]
          exact Or.inr (Or.inr hlog)

/-- C6 witness: a two-ticker batch where the second ticker fails at every
stage returns exactly the first ticker's pair and logs the failure. -/
theorem C6_witness :
    (get_multiple_quotes cfgAll PRICE_SELECTORS reqsW).results
      = [(qYf, mkMeta "req1" "AAPL" "yfinance" 5 true none false)]
    ∧ ("Failed to get quote for INVALID: All data sources failed for INVALID")
        ∈ (get_multiple_quotes cfgAll PRICE_SELECTORS reqsW).logs := by
  have h := C6_batch_sequential cfgAll PRICE_SELECTORS reqsW
  constructor
  · rw [h.1]; rfl
  · have hm : ("INVALID", envFail) ∈ reqsW := by
      unfold reqsW
      exact List.mem_cons_of_mem _ (List.mem_cons_self _ _)
    have := h.2 ("INVALID", envFail) hm
      (.exception "All data sources failed for INVALID") rfl
    simpa using this

/-- C10: `update_selectors` never removes or reorders existing selectors: the
previous list is a suffix of the new one, the length grows by at most one,
and a duplicate-free list stays duplicate-free. -/
theorem C10_update_selectors_monotone (sels : List String)
    (o : Option String) :
    sels <:+ update_selectors sels o
    ∧ (update_selectors sels o).length ≤ sels.length + 1
    ∧ (sels.Nodup → (update_selectors sels o).Nodup) := by
  match o with
  | none =>
    exact ⟨List.suffix_refl sels, Nat.le_succ _, fun h => h⟩
  | some s =>
    simp only [update_selectors]
    by_cases he : s.isEmpty
    · simp only [he, if_true]
      exact ⟨List.suffix_refl sels, Nat.le_succ _, fun h => h⟩
    · simp only [he, if_false]
      by_cases hm : s ∈ sels
      · simp only [hm, if_true]
        exact ⟨List.suffix_refl sels, Nat.le_succ _, fun h => h⟩
      · simp only [hm, if_false]
        exact ⟨List.suffix_cons s sels, by simp,
          fun h => List.nodup_cons.mpr ⟨hm, h⟩⟩

/-- C10 witness: instantiation at the repository's default selector list and
a fresh selector. -/
theorem C10_witness :
    PRICE_SELECTORS.Nodup
    ∧ PRICE_SELECTORS <:+ update_selectors PRICE_SELECTORS (some "span.p")
    ∧ (update_selectors PRICE_SELECTORS (some "span.p")).length
        ≤ PRICE_SELECTORS.length + 1
    ∧ (update_selectors PRICE_SELECTORS (some "span.p")).Nodup := by
  have h := C10_update_selectors_monotone PRICE_SELECTORS (some "span.p")
  exact ⟨by decide, h.1, h.2.1, h.2.2 (by decide)⟩

/-- C8 counterexample: pydantic accepts a `Quote` whose `volume` and
`market_cap` are negative — the model declares no lower bound on them, so the
claim that every constructible quote has non-negative volume/market-cap is
false. -/
theorem C8_counterexample :
    Quote.validate
      { ticker := "AAPL", price := 150, currency := none,
        source := "yfinance", volume := some (-1), market_cap := some (-2) }
    = .ok { ticker := "AAPL", price := 150, currency := "USD",
            source := "yfinance", change := none, change_percent := none,
            volume := some (-1), market_cap := some (-2) } := by
  rfl

/-- C8 amended: a validated `Quote` has `price ≥ 0`, a `source` drawn from
the two-value literal, and `currency` defaulting to "USD" when unsupplied;
`volume` and `market_cap` pass through unconstrained. -/
theorem C8_quote_validation_amended (i : QuoteInput) (q : Quote)
    (h : Quote.validate i = .ok q) :
    0 ≤ q.price
    ∧ q.currency = i.currency.getD "USD"
    ∧ (i.currency = none → q.currency = "USD")
    ∧ validSource q.source = true
    ∧ q.volume = i.volume
    ∧ q.market_cap = i.market_cap := by
  unfold Quote.validate at h
  by_cases hp : i.price < 0
  · simp [hp] at h
  · by_cases hs : validSource i.source
    · simp only [hp, if_false, hs, Bool.not_true, Bool.false_eq_true,
        if_false, Except.ok.injEq] at h
      subst h
      refine ⟨le_of_not_lt hp, rfl, ?_, hs, rfl, rfl⟩
      intro hc
      simp [hc]
    · simp only [hp, if_false] at h
      simp only [Bool.not_eq_true'] at h
      rw [if_pos] at h
      · exact absurd h (by simp)
      · simp [Bool.not_eq_true'] at hs ⊢
        exact hs

/-- C8 witness: the amended theorem applied to a concrete accepted input. -/
theorem C8_witness :
    (0 : Rat) ≤ 150
    ∧ ("USD" : String) = "USD"
    ∧ validSource "yfinance" = true := by
  have h := C8_quote_validation_amended
    { ticker := "AAPL", price := 150, currency := none,
      source := "yfinance", volume := some 3, market_cap := some 7 }
    { ticker := "AAPL", price := 150, currency := "USD",
      source := "yfinance", change := none, change_percent := none,
      volume := some 3, market_cap := some 7 }
    rfl
  exact ⟨h.1, h.2.2.1 rfl, h.2.2.2.1⟩

/-- C7: `get_history` delegates to the provider client only (no scraper, no
snippet, no assistant), returns the provider's result — and hence its error —
untouched, and selects the query range by the start/end/period precedence
rule of the source. -/
theorem C7_get_history_provider_only (t : String) (start stop : Option Nat)
    (p : String)
    (u : HistoryRange → Except PyExc (List HistoricalBar)) :
    (get_history t start stop p u).result = yf_get_history t start stop p u
    ∧ (get_history t start stop p u).providerCalls = 1
    ∧ (get_history t start stop p u).scraperCalls = 0
    ∧ (get_history t start stop p u).snippetCalls = 0
    ∧ (get_history t start stop p u).assistantCalls = 0
    ∧ (∀ a b, start = some a → stop = some b →
        selectRange start stop p = .startEnd a b)
    ∧ (∀ a, start = some a → stop = none →
        selectRange start stop p = .startOnly a)
    ∧ (start = none → selectRange start stop p = .periodOnly p) := by
  refine ⟨rfl, rfl, rfl, rfl, rfl, ?_, ?_, ?_⟩
  · intro a b ha hb; subst ha; subst hb; rfl
  · intro a ha hb; subst ha; subst hb; rfl
  · intro ha; subst ha; rfl

/-- C7 witness: concrete instantiation — both dates given override the
period, and a provider failure propagates as the provider's own wrapped
error. -/
theorem C7_witness :
    selectRange (some 1) (some 2) "1mo" = .startEnd 1 2
    ∧ (get_history "AAPL" (some 1) (some 2) "1mo" histDown).result
        = .error (.yfinanceError "Failed to get history for AAPL: feed down") := by
  have h := C7_get_history_provider_only "AAPL" (some 1) (some 2) "1mo" histDown
  refine ⟨h.2.2.2.2.2.1 1 2 rfl rfl, ?_⟩
  rw [h.1]
  rfl

/-- C5: when provider use is enabled and the provider call succeeds,
`get_quote` returns that quote immediately with source "yfinance" (the
spec's "provider"), success metadata, `gemini_used = false`, and the scraper
and assistant are never invoked; the selector list is untouched. -/
theorem C5_provider_short_circuit (cfg : Settings) (env : FetchEnv)
    (sel0 : List String) (t : String) (q : Quote)
    (hy : cfg.use_yfinance = true)
    (hp : env.providerUnderlying = .ok q) :
    get_quote cfg env sel0 t =
      { result := .ok (q, mkMeta env.request_id t "yfinance" env.latency
          true none false),
        logs := [], providerCalls := 1, scraperCalls := 0, snippetCalls := 0,
        assistantCalls := 0, selectors := sel0, discardedMeta := none } := by
  simp [get_quote, yf_get_latest_quote, hy, hp]

/-- C5 witness: the theorem applied to a successful provider environment. -/
theorem C5_witness :
    get_quote cfgAll envOk PRICE_SELECTORS "AAPL" =
      { result := .ok (qYf, mkMeta "req1" "AAPL" "yfinance" 5 true none false),
        logs := [], providerCalls := 1, scraperCalls := 0, snippetCalls := 0,
        assistantCalls := 0, selectors := PRICE_SELECTORS,
        discardedMeta := none } := by
  exact C5_provider_short_circuit cfgAll envOk PRICE_SELECTORS "AAPL" qYf rfl rfl

/-- C9: with both data-source feature flags disabled, `get_quote` contacts no
collaborator at all and fails with the terminal error; the failure metadata it
builds (and discards) has source "none", success false, gemini_used false. -/
theorem C9_flags_disabled (cfg : Settings) (env : FetchEnv)
    (sel0 : List String) (t : String)
    (hy : cfg.use_yfinance = false)
    (hh : cfg.use_html_fallback = false) :
    get_quote cfg env sel0 t =
      { result := .error (.exception ("All data sources failed for " ++ t)),
        logs := [], providerCalls := 0, scraperCalls := 0, snippetCalls := 0,
        assistantCalls := 0, selectors := sel0,
        discardedMeta := some (mkMeta env.request_id t "none" env.latency
          false (some ("All data sources failed for " ++ t)) false) } := by
  simp [get_quote, scrapeStage, allFailed, hy, hh]

/-- C9 witness: the theorem applied to a concrete environment; no stage is
even consulted. -/
theorem C9_witness :
    get_quote cfgOff envOk PRICE_SELECTORS "AAPL" =
      { result := .error (.exception "All data sources failed for AAPL"),
        logs := [], providerCalls := 0, scraperCalls := 0, snippetCalls := 0,
        assistantCalls := 0, selectors := PRICE_SELECTORS,
        discardedMeta := some (mkMeta "req1" "AAPL" "none" 5 false
          (some "All data sources failed for AAPL") false) } := by
  exact C9_flags_disabled cfgOff envOk PRICE_SELECTORS "AAPL" rfl rfl

end StockAPI
